import Mathlib

/-!
# Verification of the lunjs multi-account login batch

Shallow embedding of `scripts/login.js`: a batch that logs a set of
accounts into `https://ctrl.lunes.host/auth/login` with a headless
browser, classifies each attempt heuristically from the page URL and
page text, retries failed attempts, and reports an aggregate exit code.

Modelling conventions:

* A page observation (`PageState`) carries the current URL, the page
  title, the body's visible text (`locator('body').innerText()`), and the
  list of elements a locator can match, each with its visible text and
  its `class` attribute.  A `text=/a|b|c/i` locator matches an element
  whose text contains one of the alternatives case-insensitively (the
  alternation patterns in the source are literal phrases); `.cls`
  matches by class token; `[class*="s"]` matches by substring of the
  `class` attribute.
* Browser effects are oracles: one attempt is given the page reached
  after navigating to the login URL (or the fault message thrown while
  navigating) and the settled page after form fill and submission (or
  the fault message thrown in that stage).  A whole run is a pure
  function of the per-account, per-retry oracles.
* `JSON.parse` is a platform builtin; its result is modelled by
  `ConfigInput`: the configuration value is absent (or empty, which is
  falsy in JS), unparseable, or parses to a `JsonValue`.
* Notifications and screenshots are fire-and-forget side channels that
  never influence control flow in the source, so they are not modelled.
-/

namespace Lunjs

/-- Is `needle` a contiguous sublist of the second argument? -/
def listContainsSub (needle : List Char) : List Char → Bool
  | [] => needle.isEmpty
  | c :: rest => needle.isPrefixOf (c :: rest) || listContainsSub needle rest

/-- The characters of a string, lower-cased (ASCII; CJK is unaffected,
matching a JS regex `i` flag over these literal patterns). -/
def lowerData (s : String) : List Char := s.data.map Char.toLower

/-- Case-sensitive substring test (JS `String.prototype.includes`). -/
def containsStr (hay needle : String) : Bool :=
  listContainsSub needle.data hay.data

/-- Case-insensitive substring test (a JS regex of literal alternatives
with the `i` flag testing a string). -/
def containsCI (hay needle : String) : Bool :=
  listContainsSub (lowerData needle) (lowerData hay)

/-- Split a character list on spaces (for `class` attribute tokens). -/
def splitOnSpace : List Char → List Char → List (List Char)
  | [], acc => [acc.reverse]
  | c :: rest, acc =>
    if c = ' ' then acc.reverse :: splitOnSpace rest []
    else splitOnSpace rest (c :: acc)

/-- A DOM element as the locators of `scripts/login.js` see it: its
visible text and its `class` attribute. -/
structure Elem where
  text : String
  className : String
deriving DecidableEq

/-- The page observation one attempt reads: current URL, title, full
body text, and the matchable elements in document order. -/
structure PageState where
  url : String
  title : String
  bodyText : String
  elems : List Elem
deriving DecidableEq

/-- The selector forms used by the source's `successSelectors`,
`errorSelectors` and bot-check locator. -/
inductive Sel where
  | textPat (pats : List String)
  | classToken (tok : String)
  | classSub (sub : String)

/-- Whether one element matches a selector. -/
def matchesSel : Sel → Elem → Bool
  | .textPat pats, e => pats.any fun pat => containsCI e.text pat
  | .classToken tok, e => (splitOnSpace e.className.data []).contains tok.data
  | .classSub sub, e => containsStr e.className sub

/-- `page.locator(sel).count() > 0`. -/
def locatorHasMatch (p : PageState) (s : Sel) : Bool :=
  p.elems.any (matchesSel s)

/-- `page.locator(sel).first().innerText()`, `none` when nothing
matches. -/
def locatorFirstText (p : PageState) (s : Sel) : Option String :=
  (p.elems.find? (matchesSel s)).map Elem.text

/-- `const LOGIN_URL = 'https://ctrl.lunes.host/auth/login'`. -/
def LOGIN_URL : String := "https://ctrl.lunes.host/auth/login"

/-- `const MAX_RETRIES = 2`. -/
def MAX_RETRIES : Nat := 2

/-- The bot-check phrases of the locator
`text=/Verify you are human|需要验证|安全检查|review the security|Cloudflare|Turnstile/i`. -/
def botPatterns : List String :=
  ["Verify you are human", "需要验证", "安全检查", "review the security", "Cloudflare", "Turnstile"]

/-- The bot-check detection performed right after opening the login
page. -/
def botCheckDetected (p : PageState) : Bool :=
  locatorHasMatch p (.textPat botPatterns)

/-- The source's `successSelectors` list, in order. -/
def successSelectors : List Sel :=
  [.textPat ["Dashboard", "控制台", "面板", "仪表板"],
   .textPat ["Logout", "Sign out", "退出", "登出"],
   .textPat ["Welcome", "欢迎"],
   .textPat ["Account", "账户", "账号"],
   .textPat ["Profile", "个人资料"]]

/-- The source's `errorSelectors` list, in order. -/
def errorSelectors : List Sel :=
  [.textPat ["Invalid", "incorrect", "错误", "失败", "无效", "不正确"],
   .textPat ["Error", "异常", "问题"],
   .classToken "error-message",
   .classToken "alert-error",
   .classToken "text-danger",
   .classSub "error",
   .classSub "alert",
   .classSub "danger"]

/-- `successHint > 0` after the success-selector loop: the loop adds the
first positive count and breaks, so the accumulated hint is positive
exactly when some success selector matches. -/
def successHintPos (p : PageState) : Bool :=
  successSelectors.any (locatorHasMatch p)

/-- `/\/auth\/login/i.test(url)`. -/
def stillOnLogin (p : PageState) : Bool :=
  containsCI p.url "/auth/login"

/-- The classification outcome: heuristic status and human-readable
reason. -/
structure ClassifiedResult where
  success : Bool
  message : String
deriving DecidableEq

/-- The error-reason scan (`for (const selector of errorSelectors)`):
whenever a selector has a match, the first matched element's text
overwrites the accumulator `errorMsg`; the scan stops at the first text
of length greater than one. -/
def errorScan (p : PageState) : List Sel → String → String
  | [], acc => acc
  | s :: rest, acc =>
    match locatorFirstText p s with
    | none => errorScan p rest acc
    | some t => if 1 < t.length then t else errorScan p rest t

/-- The post-submission outcome classification (source lines 238-318):
SUCCESS when the URL left `/auth/login` or a success phrase matches,
otherwise the error scan with its title/body `Error` fallback and the
generic `登录失败` reason. -/
def classify (p : PageState) : ClassifiedResult :=
  if !stillOnLogin p || successHintPos p then
    ⟨true, "登录成功"⟩
  else
    let e0 := errorScan p errorSelectors ""
    let e1 :=
      if e0 = "" then
        if containsStr p.title "Error" || containsStr p.bodyText "Error" then
          "页面显示错误状态"
        else ""
      else e0
    ⟨false, if e1 = "" then "登录失败" else e1⟩

/-- The environment one attempt runs against: the page reached by
navigating to the login URL (or the message of the fault thrown while
navigating), and the page settled after form interaction and submission
(or the message of the fault thrown during that stage). -/
structure AttemptEnv where
  nav : Except String PageState
  form : Except String PageState

/-- The object `attemptLogin` resolves with:
`{ success, username, message }`. -/
structure AttemptResult where
  success : Bool
  username : String
  message : String
deriving DecidableEq

/-- `attemptLogin`: open the login page, stop on a detected bot check
before touching the form, otherwise fill and submit and classify; every
fault thrown inside the attempt is caught and becomes a FAILURE whose
message is `异常: ` followed by the fault's message.  The second
component records whether the form-interaction stage was reached. -/
def attemptLogin (username : String) (env : AttemptEnv) : AttemptResult × Bool :=
  match env.nav with
  | .error m => (⟨false, username, "异常: " ++ m⟩, false)
  | .ok p0 =>
    if botCheckDetected p0 then
      (⟨false, username, "人机验证页面"⟩, false)
    else
      match env.form with
      | .error m => (⟨false, username, "异常: " ++ m⟩, true)
      | .ok p1 => (⟨(classify p1).success, username, (classify p1).message⟩, true)

/-- The retry loop of `loginWithAccount`.  The JS `while` condition is
`retryCount <= MAX_RETRIES && !(result?.success)`; since `result` is
`null` on entry and `0 <= MAX_RETRIES`, the loop is the do-while
recursion below.  It returns the last attempt's result, the final
`retryCount`, and the list of `retryCount` values at which an attempt
was performed.  The fuel argument only bounds the recursion: started at
`MAX_RETRIES + 1` with `rc = 0` it can never reach `0`, because the
guard requires `rc + 1 ≤ MAX_RETRIES` to recurse. -/
def loginLoop (att : Nat → AttemptResult) : Nat → Nat → AttemptResult × Nat × List Nat
  | 0, rc => (att rc, rc + 1, [rc])
  | fuel + 1, rc =>
    let result := att rc
    if result.success = false ∧ rc + 1 ≤ MAX_RETRIES then
      let rest := loginLoop att fuel (rc + 1)
      (rest.1, rest.2.1, rc :: rest.2.2)
    else
      (result, rc + 1, [rc])

/-- The per-account outcome `loginWithAccount` returns:
`{ ...result, retries: retryCount - 1 }`. -/
structure LoginResult where
  success : Bool
  username : String
  message : String
  retries : Nat
deriving DecidableEq

/-- `loginWithAccount`: run the retry loop over `attemptLogin` and report
the last result together with the number of retries consumed. -/
def loginWithAccount (username : String) (envs : Nat → AttemptEnv) : LoginResult :=
  let att := fun rc => (attemptLogin username (envs rc)).1
  let r := loginLoop att (MAX_RETRIES + 1) 0
  ⟨r.1.success, r.1.username, r.1.message, r.2.1 - 1⟩

/-- The retry indices at which `loginWithAccount` actually invoked
`attemptLogin` (an observation of the same loop). -/
def attemptsMade (username : String) (envs : Nat → AttemptEnv) : List Nat :=
  let att := fun rc => (attemptLogin username (envs rc)).1
  (loginLoop att (MAX_RETRIES + 1) 0).2.2

/-- Parsed JSON values (numeric precision is irrelevant to the run). -/
inductive JsonValue where
  | null
  | bool (b : Bool)
  | num (n : Int)
  | str (s : String)
  | arr (items : List JsonValue)
  | obj (fields : List (String × JsonValue))

/-- The `USERNAME_AND_PASSWORD` configuration value as seen after
`envOrThrow` and `JSON.parse`: absent (unset or empty, both falsy),
unparseable (`JSON.parse` throws), or parsed. -/
inductive ConfigInput where
  | absent
  | unparseable
  | parsed (v : JsonValue)

/-- `typeof v === 'object' && v !== null` for a parsed JSON value
(arrays and objects pass, `null` and primitives are rejected). -/
def isObjectType : JsonValue → Bool
  | .arr _ => true
  | .obj _ => true
  | _ => false

/-- Map with the element's position (used for `Object.entries` on arrays
and for the per-account loop of `main`). -/
def mapWithIndex {α β : Type} (f : Nat → α → β) : Nat → List α → List β
  | _, [] => []
  | i, x :: xs => f i x :: mapWithIndex f (i + 1) xs

/-- `Object.entries`: own fields for an object, decimal-index keys for an
array, in insertion order. -/
def jsEntries : JsonValue → List (String × JsonValue)
  | .obj fields => fields
  | .arr items => mapWithIndex (fun i v => (toString i, v)) 0 items
  | _ => []

/-- The initialization of `main`: require the configuration value, parse
it, require a non-null object type and at least one entry; on success
return the account entries. -/
def configCheck : ConfigInput → Except String (List (String × JsonValue))
  | .absent => .error "环境变量 USERNAME_AND_PASSWORD 未设置"
  | .unparseable => .error "USERNAME_AND_PASSWORD 格式错误，应为有效的 JSON 字符串"
  | .parsed v =>
    if isObjectType v = false then .error "USERNAME_AND_PASSWORD 应为对象格式"
    else if (jsEntries v).length = 0 then .error "未找到有效的账户信息"
    else .ok (jsEntries v)

/-- The observable outcome of one run of `main`: whether initialization
failed, the per-account results in processing order, and
`process.exitCode`. -/
structure RunResult where
  initFailed : Bool
  results : List LoginResult
  exitCode : Nat
deriving DecidableEq

/-- `main`: check the configuration; on failure set exit code 1 with no
attempts; otherwise process each account sequentially through
`loginWithAccount` and set exit code 1 exactly when some account's
result is not a success. -/
def mainRun (cfg : ConfigInput) (envs : Nat → Nat → AttemptEnv) : RunResult :=
  match configCheck cfg with
  | .error _ => ⟨true, [], 1⟩
  | .ok entries =>
    let results := mapWithIndex (fun i uv => loginWithAccount uv.1 (envs i)) 0 entries
    ⟨false, results, if results.any (fun r => !r.success) then 1 else 0⟩

/-- A login page showing a Cloudflare-style challenge. -/
def botPage : PageState :=
  ⟨"https://ctrl.lunes.host/auth/login", "Just a moment...",
   "Verify you are human", [⟨"Verify you are human", ""⟩]⟩

/-- An attempt environment whose navigation lands on the challenge. -/
def botEnv : AttemptEnv := ⟨.ok botPage, .ok botPage⟩

/-- An ordinary login form page with no challenge. -/
def loginFormPage : PageState :=
  ⟨"https://ctrl.lunes.host/auth/login", "Login",
   "Please enter your credentials", [⟨"Please enter your credentials", ""⟩]⟩

/-- A page reached after a successful login (URL left `/auth/login`). -/
def dashboardPage : PageState :=
  ⟨"https://ctrl.lunes.host/dashboard", "Dashboard",
   "Welcome back", [⟨"Welcome back", ""⟩]⟩

/-- An attempt environment for a first-try success. -/
def okEnv : AttemptEnv := ⟨.ok loginFormPage, .ok dashboardPage⟩

/-- A post-submission page still on the login URL with an explicit error
message. -/
def failPage : PageState :=
  ⟨"https://ctrl.lunes.host/auth/login", "Login",
   "Invalid credentials", [⟨"Invalid credentials", ""⟩]⟩

/-- An environment whose submission comes back with an error message. -/
def failEnv : AttemptEnv := ⟨.ok loginFormPage, .ok failPage⟩

/-- An environment whose navigation throws. -/
def faultEnv : AttemptEnv := ⟨.error "boom", .error "boom"⟩

/-- An environment faulting after a clear bot check. -/
def faultEnv2 : AttemptEnv := ⟨.ok loginFormPage, .error "net down"⟩

/-- Attempt oracles for a run where every attempt succeeds first try. -/
def trivEnvs : Nat → Nat → AttemptEnv := fun _ _ => okEnv

/-- A page still on the login URL whose body shows `Welcome`. -/
def welcomeLoginPage : PageState :=
  ⟨"https://ctrl.lunes.host/auth/login", "Login", "Welcome", [⟨"Welcome", ""⟩]⟩

/-- A page off the login URL with no success phrase. -/
def offLoginPage : PageState :=
  ⟨"https://ctrl.lunes.host/", "Home", "nothing to see", [⟨"nothing to see", ""⟩]⟩

/-- A two-account configuration value. -/
def cfgW : ConfigInput :=
  .parsed (.obj [("a@b.c", .str "pw1"), ("d@e.f", .str "pw2")])

/-- The entries of `cfgW`. -/
def entriesW : List (String × JsonValue) :=
  [("a@b.c", .str "pw1"), ("d@e.f", .str "pw2")]

/-! ## Helper lemmas -/

theorem prefOf_self (l : List Char) : l.isPrefixOf l = true := by
  induction l with
  | nil => rfl
  | cons c cs ih => simp [List.isPrefixOf, ih]

theorem containsStr_append (s t : String) : containsStr (s ++ t) t = true := by
  unfold containsStr
  rw [String.data_append]
  induction s.data with
  | nil =>
    cases h : t.data with
    | nil => simp [listContainsSub, List.isEmpty]
    | cons c cs => simp [listContainsSub, ← h, prefOf_self]
  | cons c cs ih =>
    simp [listContainsSub, ih]

theorem mapWithIndex_length {α β : Type} (f : Nat → α → β) :
    ∀ (i : Nat) (xs : List α), (mapWithIndex f i xs).length = xs.length := by
  intro i xs
  induction xs generalizing i with
  | nil => rfl
  | cons x xs ih => simp [mapWithIndex, ih]

theorem mapWithIndex_map {α β γ : Type} (f : Nat → α → β) (g : β → γ) :
    ∀ (i : Nat) (xs : List α),
      (mapWithIndex f i xs).map g = mapWithIndex (fun j x => g (f j x)) i xs := by
  intro i xs
  induction xs generalizing i with
  | nil => rfl
  | cons x xs ih => simp [mapWithIndex, ih]

theorem mapWithIndex_congr {α β : Type} (f g : Nat → α → β)
    (h : ∀ j x, f j x = g j x) :
    ∀ (i : Nat) (xs : List α), mapWithIndex f i xs = mapWithIndex g i xs := by
  intro i xs
  induction xs generalizing i with
  | nil => rfl
  | cons x xs ih => simp [mapWithIndex, h, ih]

theorem mapWithIndex_eq_map {α β : Type} (h : α → β) :
    ∀ (i : Nat) (xs : List α), mapWithIndex (fun _ x => h x) i xs = xs.map h := by
  intro i xs
  induction xs generalizing i with
  | nil => rfl
  | cons x xs ih => simp [mapWithIndex, ih]

theorem mapWithIndex_comp {α β γ : Type} (f : Nat → α → β) (g : Nat → β → γ) :
    ∀ (i : Nat) (xs : List α),
      mapWithIndex g i (mapWithIndex f i xs) = mapWithIndex (fun j x => g j (f j x)) i xs := by
  intro i xs
  induction xs generalizing i with
  | nil => rfl
  | cons x xs ih => simp [mapWithIndex, ih]

theorem attemptLogin_username (u : String) (env : AttemptEnv) :
    (attemptLogin u env).1.username = u := by
  obtain ⟨nav, form⟩ := env
  unfold attemptLogin
  cases nav with
  | error m => rfl
  | ok p0 =>
    cases hb : botCheckDetected p0 with
    | true => simp [hb]
    | false =>
      cases form with
      | error m => simp [hb]
      | ok p1 => simp [hb]

theorem loginLoop_username (att : Nat → AttemptResult) (u : String)
    (h : ∀ k, (att k).username = u) :
    ∀ (fuel rc : Nat), (loginLoop att fuel rc).1.username = u := by
  intro fuel
  induction fuel with
  | zero => intro rc; simpa [loginLoop] using h rc
  | succ fuel ih =>
    intro rc
    by_cases hcond : (att rc).success = false ∧ rc + 1 ≤ MAX_RETRIES
    · simp only [loginLoop, if_pos hcond]
      simpa using ih (rc + 1)
    · simp only [loginLoop, if_neg hcond]
      simpa using h rc

theorem loginWithAccount_username (u : String) (envs : Nat → AttemptEnv) :
    (loginWithAccount u envs).username = u := by
  unfold loginWithAccount
  exact loginLoop_username _ u (fun k => attemptLogin_username u (envs k)) _ _

theorem loginLoop_rcBound (att : Nat → AttemptResult) :
    ∀ (fuel rc : Nat), rc ≤ MAX_RETRIES → (loginLoop att fuel rc).2.1 ≤ MAX_RETRIES + 1 := by
  intro fuel
  induction fuel with
  | zero => intro rc h; simpa [loginLoop] using Nat.succ_le_succ h
  | succ fuel ih =>
    intro rc h
    by_cases hcond : (att rc).success = false ∧ rc + 1 ≤ MAX_RETRIES
    · simp only [loginLoop, if_pos hcond]
      simpa using ih (rc + 1) hcond.2
    · simp only [loginLoop, if_neg hcond]
      simpa using Nat.succ_le_succ h

theorem loginLoop_firstSuccess (att : Nat → AttemptResult)
    (h : (att 0).success = true) :
    loginLoop att (MAX_RETRIES + 1) 0 = (att 0, 1, [0]) := by
  simp [loginLoop, MAX_RETRIES, h]

theorem loginLoop_persistent (att : Nat → AttemptResult)
    (h0 : (att 0).success = false) (h1 : (att 1).success = false)
    (h2 : (att 2).success = false) :
    loginLoop att (MAX_RETRIES + 1) 0 = (att 2, 3, [0, 1, 2]) := by
  simp [loginLoop, MAX_RETRIES, h0, h1, h2]

theorem attemptLogin_botCheck (u : String) (env : AttemptEnv) (p : PageState)
    (hnav : env.nav = Except.ok p) (hbot : botCheckDetected p = true) :
    attemptLogin u env = (⟨false, u, "人机验证页面"⟩, false) := by
  obtain ⟨nav, form⟩ := env
  cases hnav
  simp [attemptLogin, hbot]

/-! ## Claim theorems -/

/-- C1 (counterexample): with every attempt of the account landing on a
bot-check challenge page, the retry loop performs three attempts (retry
indices 0, 1, 2), not exactly one: a bot-check-detected failure is
retried. -/
theorem C1_cex :
    attemptsMade "user@example.com" (fun _ => botEnv) = [0, 1, 2] ∧
    ¬ (attemptsMade "user@example.com" (fun _ => botEnv)).length = 1 := by
  constructor
  · rfl
  · intro h
    rw [show attemptsMade "user@example.com" (fun _ => botEnv) = [0, 1, 2] from rfl] at h
    simp at h

/-- C1 (amended): an attempt that detects the bot-check challenge returns
FAILURE before the form-interaction stage is reached, but the Retry
Policy does not special-case it: when every attempt of an account
detects the challenge, the loop performs `MAX_RETRIES + 1` attempts (at
retry indices 0, 1, 2) and reports `MAX_RETRIES` retries. -/
theorem C1_amended :
    (∀ (u : String) (env : AttemptEnv) (p : PageState),
      env.nav = Except.ok p → botCheckDetected p = true →
      attemptLogin u env = (⟨false, u, "人机验证页面"⟩, false)) ∧
    (∀ (u : String) (envs : Nat → AttemptEnv),
      (∀ rc, rc ≤ MAX_RETRIES → ∃ q, (envs rc).nav = Except.ok q ∧ botCheckDetected q = true) →
      attemptsMade u envs = [0, 1, 2] ∧
      (loginWithAccount u envs).retries = MAX_RETRIES) := by
  refine ⟨attemptLogin_botCheck, ?_⟩
  intro u envs h
  have hfail : ∀ rc, rc ≤ MAX_RETRIES →
      ((fun rc => (attemptLogin u (envs rc)).1) rc).success = false := by
    intro rc hrc
    obtain ⟨q, hnav, hbot⟩ := h rc hrc
    simp [attemptLogin_botCheck u (envs rc) q hnav hbot]
  have hloop := loginLoop_persistent (fun rc => (attemptLogin u (envs rc)).1)
    (hfail 0 (by simp [MAX_RETRIES])) (hfail 1 (by simp [MAX_RETRIES]))
    (hfail 2 (by simp [MAX_RETRIES]))
  constructor
  · show (loginLoop (fun rc => (attemptLogin u (envs rc)).1) (MAX_RETRIES + 1) 0).2.2 = [0, 1, 2]
    rw [hloop]
  · show (loginLoop (fun rc => (attemptLogin u (envs rc)).1) (MAX_RETRIES + 1) 0).2.1 - 1 = MAX_RETRIES
    rw [hloop]
    rfl

/-- C1 (amended, witness): a concrete account whose attempts all land on
the challenge page. -/
theorem C1_amended_w :
    attemptLogin "u" botEnv = (⟨false, "u", "人机验证页面"⟩, false) ∧
    attemptsMade "u" (fun _ => botEnv) = [0, 1, 2] := by
  refine ⟨C1_amended.1 "u" botEnv botPage rfl rfl,
    (C1_amended.2 "u" (fun _ => botEnv) ?_).1⟩
  intro rc _
  exact ⟨botPage, rfl, rfl⟩

/-- C2 (counterexample): the first attempt of the account returns the
bot-check-detected FAILURE, yet the reported retries count is 2, not
0. -/
theorem C2_cex :
    (attemptLogin "u2" botEnv).1 = ⟨false, "u2", "人机验证页面"⟩ ∧
    (loginWithAccount "u2" (fun _ => botEnv)).retries = 2 ∧
    ¬ (loginWithAccount "u2" (fun _ => botEnv)).retries = 0 := by
  refine ⟨rfl, rfl, ?_⟩
  intro h
  rw [show (loginWithAccount "u2" (fun _ => botEnv)).retries = 2 from rfl] at h
  simp at h

/-- C2 (amended): the retries count is always at most `MAX_RETRIES`, and
it is 0 whenever the first attempt returns SUCCESS (a first attempt
that detects a bot check is retried like any other failure). -/
theorem C2_amended :
    (∀ (u : String) (envs : Nat → AttemptEnv),
      (loginWithAccount u envs).retries ≤ MAX_RETRIES) ∧
    (∀ (u : String) (envs : Nat → AttemptEnv),
      (attemptLogin u (envs 0)).1.success = true →
      (loginWithAccount u envs).retries = 0) := by
  constructor
  · intro u envs
    have h := loginLoop_rcBound (fun rc => (attemptLogin u (envs rc)).1)
      (MAX_RETRIES + 1) 0 (Nat.zero_le _)
    show (loginLoop (fun rc => (attemptLogin u (envs rc)).1) (MAX_RETRIES + 1) 0).2.1 - 1 ≤ MAX_RETRIES
    omega
  · intro u envs h
    show (loginLoop (fun rc => (attemptLogin u (envs rc)).1) (MAX_RETRIES + 1) 0).2.1 - 1 = 0
    rw [loginLoop_firstSuccess (fun rc => (attemptLogin u (envs rc)).1) h]
    rfl

/-- C2 (amended, witness): a concrete first-try success reports 0
retries and respects the bound. -/
theorem C2_amended_w :
    (attemptLogin "w2" ((fun _ => okEnv) 0)).1.success = true ∧
    (loginWithAccount "w2" (fun _ => okEnv)).retries = 0 ∧
    (loginWithAccount "w2" (fun _ => okEnv)).retries ≤ MAX_RETRIES :=
  ⟨rfl, C2_amended.2 "w2" (fun _ => okEnv) rfl, C2_amended.1 "w2" (fun _ => okEnv)⟩

/-- C3: the classifier returns SUCCESS exactly when the URL no longer
matches `/auth/login` or some success-phrase selector matches, and in
that case the error checks never run (the result is the fixed success
outcome), so the success check strictly precedes any failure check. -/
theorem C3_success (p : PageState) :
    ((classify p).success = true ↔ (stillOnLogin p = false ∨ successHintPos p = true)) ∧
    ((stillOnLogin p = false ∨ successHintPos p = true) →
      classify p = ⟨true, "登录成功"⟩) := by
  unfold classify
  cases hs : stillOnLogin p <;> cases hh : successHintPos p <;> simp

/-- C3 (witness): a page still on `/auth/login` whose body shows
`Welcome` classifies as SUCCESS, and a page off `/auth/login` with no
success phrase classifies as SUCCESS. -/
theorem C3_success_w :
    classify welcomeLoginPage = ⟨true, "登录成功"⟩ ∧
    classify offLoginPage = ⟨true, "登录成功"⟩ :=
  ⟨(C3_success welcomeLoginPage).2 (Or.inr rfl),
   (C3_success offLoginPage).2 (Or.inl rfl)⟩

/-- The error scan ignores selectors whose first match, if any, has
length at most one: the scan of `pre ++ rest` equals the scan of `rest`
from some accumulator. -/
theorem errorScan_skip (p : PageState) :
    ∀ (pre rest : List Sel) (acc : String),
      (∀ s2 ∈ pre, ∀ t2, locatorFirstText p s2 = some t2 → t2.length ≤ 1) →
      ∃ acc2, errorScan p (pre ++ rest) acc = errorScan p rest acc2 := by
  intro pre
  induction pre with
  | nil => intro rest acc _; exact ⟨acc, rfl⟩
  | cons s pre ih =>
    intro rest acc h
    have hs := h s (List.mem_cons_self s pre)
    cases hm : locatorFirstText p s with
    | none =>
      have := ih rest acc (fun s2 hs2 => h s2 (List.mem_cons_of_mem s hs2))
      simpa [errorScan, hm] using this
    | some t =>
      have hlen : t.length ≤ 1 := hs t hm
      have := ih rest t (fun s2 hs2 => h s2 (List.mem_cons_of_mem s hs2))
      have hnot : ¬ 1 < t.length := by omega
      simpa [errorScan, hm, hnot] using this

/-- C4: still on the login URL with no success phrase, the classifier
scans `errorSelectors` in order; if the selectors before position `k`
match nothing of length above one and the selector at `k` first matches
a text `t` with `t.length > 1`, the outcome is FAILURE with reason
`t`. -/
theorem C4_reason (p : PageState) (t : String) (pre post : List Sel) (sel : Sel)
    (hs : stillOnLogin p = true) (hh : successHintPos p = false)
    (hsplit : errorSelectors = pre ++ sel :: post)
    (hpre : ∀ s2 ∈ pre, ∀ t2, locatorFirstText p s2 = some t2 → t2.length ≤ 1)
    (hm : locatorFirstText p sel = some t) (hl : 1 < t.length) :
    classify p = ⟨false, t⟩ := by
  have hne : ¬ t = "" := by
    intro h
    rw [h] at hl
    simp at hl
  obtain ⟨acc2, hskip⟩ := errorScan_skip p pre (sel :: post) "" hpre
  have hscan : errorScan p errorSelectors "" = t := by
    rw [hsplit, hskip]
    simp [errorScan, hm, hl]
  unfold classify
  rw [hs, hh]
  simp [hscan, hne]

/-- C4 (witness): body text `Invalid credentials` on the login URL gives
FAILURE with reason `Invalid credentials` (the first error selector
matches it). -/
theorem C4_reason_w : classify failPage = ⟨false, "Invalid credentials"⟩ :=
  C4_reason failPage "Invalid credentials" []
    [.textPat ["Error", "异常", "问题"],
     .classToken "error-message",
     .classToken "alert-error",
     .classToken "text-danger",
     .classSub "error",
     .classSub "alert",
     .classSub "danger"]
    (.textPat ["Invalid", "incorrect", "错误", "失败", "无效", "不正确"])
    rfl rfl rfl (by intro s2 hs2; simp at hs2) rfl (by decide)

/-- C9: the classification is a pure function of the page observation:
two page states with equal URL, title, body text and elements classify
identically (in particular the status is the same on reclassification). -/
theorem C9_pure (p q : PageState)
    (h1 : p.url = q.url) (h2 : p.title = q.title)
    (h3 : p.bodyText = q.bodyText) (h4 : p.elems = q.elems) :
    classify p = classify q ∧ (classify p).success = (classify q).success := by
  obtain ⟨u1, t1, b1, e1⟩ := p
  obtain ⟨u2, t2, b2, e2⟩ := q
  cases h1
  cases h2
  cases h3
  cases h4
  exact ⟨rfl, rfl⟩

/-- C9 (witness): reclassifying the concrete failing page gives the same
outcome. -/
theorem C9_pure_w : classify failPage = classify failPage :=
  (C9_pure failPage failPage rfl rfl rfl rfl).1

/-- C5: an accepted configuration (necessarily with at least one entry)
yields exactly one result per input account, and the result sequence
carries the input identities in input order, whatever the attempts do. -/
theorem C5_batch (cfg : ConfigInput) (envs : Nat → Nat → AttemptEnv)
    (entries : List (String × JsonValue))
    (hok : configCheck cfg = Except.ok entries) :
    (mainRun cfg envs).initFailed = false ∧
    0 < entries.length ∧
    (mainRun cfg envs).results.length = entries.length ∧
    (mainRun cfg envs).results.map (fun r => r.username) = entries.map Prod.fst := by
  have hmain : mainRun cfg envs =
      ⟨false, mapWithIndex (fun i uv => loginWithAccount uv.1 (envs i)) 0 entries,
        if (mapWithIndex (fun i uv => loginWithAccount uv.1 (envs i)) 0 entries).any
            (fun r => !r.success) then 1 else 0⟩ := by
    unfold mainRun
    rw [hok]
  have hpos : 0 < entries.length := by
    cases cfg with
    | absent => simp [configCheck] at hok
    | unparseable => simp [configCheck] at hok
    | parsed v =>
      unfold configCheck at hok
      by_cases h1 : isObjectType v = false
      · simp [h1] at hok
      · by_cases h2 : (jsEntries v).length = 0
        · simp [h1, h2] at hok
        · simp [h1, h2] at hok
          rw [← hok]
          omega
  refine ⟨by rw [hmain], hpos, ?_, ?_⟩
  · rw [hmain]
    exact mapWithIndex_length _ 0 entries
  · rw [hmain]
    show (mapWithIndex (fun i uv => loginWithAccount uv.1 (envs i)) 0 entries).map
        (fun r => r.username) = entries.map Prod.fst
    calc (mapWithIndex (fun i uv => loginWithAccount uv.1 (envs i)) 0 entries).map
          (fun r => r.username)
        = mapWithIndex (fun j uv => (loginWithAccount uv.1 (envs j)).username) 0 entries :=
          mapWithIndex_map _ _ 0 entries
      _ = mapWithIndex (fun _ uv => uv.1) 0 entries :=
          mapWithIndex_congr (fun j uv => (loginWithAccount uv.1 (envs j)).username)
            (fun _ uv => uv.1)
            (fun j uv => loginWithAccount_username uv.1 (envs j)) 0 entries
      _ = entries.map Prod.fst := mapWithIndex_eq_map _ 0 entries

/-- C5 (witness): two accounts produce two results carrying the two input
identities in order. -/
theorem C5_batch_w :
    (mainRun cfgW trivEnvs).results.length = 2 ∧
    (mainRun cfgW trivEnvs).results.map (fun r => r.username) = ["a@b.c", "d@e.f"] := by
  have h := C5_batch cfgW trivEnvs entriesW rfl
  exact ⟨h.2.2.1.trans rfl, h.2.2.2.trans rfl⟩

/-- C6: the exit code is 0 exactly when initialization succeeded and every
account's result is a success, and it is 1 exactly when initialization
failed or some account's result is a failure. -/
theorem C6_exit (cfg : ConfigInput) (envs : Nat → Nat → AttemptEnv) :
    ((mainRun cfg envs).exitCode = 0 ↔
      ((mainRun cfg envs).initFailed = false ∧
        ∀ r ∈ (mainRun cfg envs).results, r.success = true)) ∧
    ((mainRun cfg envs).exitCode = 1 ↔
      ((mainRun cfg envs).initFailed = true ∨
        ∃ r ∈ (mainRun cfg envs).results, r.success = false)) := by
  cases hc : configCheck cfg with
  | error e =>
    have hm : mainRun cfg envs = ⟨true, [], 1⟩ := by
      unfold mainRun
      rw [hc]
    rw [hm]
    simp
  | ok entries =>
    have hm : mainRun cfg envs =
        ⟨false, mapWithIndex (fun i uv => loginWithAccount uv.1 (envs i)) 0 entries,
          if (mapWithIndex (fun i uv => loginWithAccount uv.1 (envs i)) 0 entries).any
              (fun r => !r.success) then 1 else 0⟩ := by
      unfold mainRun
      rw [hc]
    rw [hm]
    by_cases hany : (mapWithIndex (fun i uv => loginWithAccount uv.1 (envs i)) 0 entries).any
        (fun r => !r.success) = true
    · obtain ⟨r, hr, hrf⟩ :
          ∃ r ∈ mapWithIndex (fun i uv => loginWithAccount uv.1 (envs i)) 0 entries,
            r.success = false := by
        simpa using hany
      simp [hany]
      exact ⟨r, hr, hrf⟩
    · have hall : ∀ r ∈ mapWithIndex (fun i uv => loginWithAccount uv.1 (envs i)) 0 entries,
          r.success = true := by
        intro r hr
        by_contra hf
        exact hany (List.any_eq_true.mpr ⟨r, hr, by simp [hf]⟩)
      simp [hany, hall]
      exact hall

/-- C6 (witness): an absent configuration exits 1; a one-account run whose
attempt succeeds exits 0. -/
theorem C6_exit_w :
    (mainRun ConfigInput.absent trivEnvs).exitCode = 1 ∧
    (mainRun cfgW trivEnvs).exitCode = 0 :=
  ⟨(C6_exit ConfigInput.absent trivEnvs).2.mpr (Or.inl rfl),
   (C6_exit cfgW trivEnvs).1.mpr ⟨rfl, by decide⟩⟩

/-- C7: a configuration value that is absent, unparseable, parses to null
or a non-object, or parses to an object with zero entries makes the run
fail fast: initialization failure, no per-account results, exit code 1,
and the run is independent of the attempt oracles (no attempt is
consulted). -/
theorem C7_failfast (cfg : ConfigInput) (envs envs2 : Nat → Nat → AttemptEnv)
    (h : cfg = ConfigInput.absent ∨ cfg = ConfigInput.unparseable ∨
      (∃ v, cfg = ConfigInput.parsed v ∧ isObjectType v = false) ∨
      (∃ fields, cfg = ConfigInput.parsed (JsonValue.obj fields) ∧ fields = [])) :
    mainRun cfg envs = ⟨true, [], 1⟩ ∧ mainRun cfg envs = mainRun cfg envs2 := by
  have herr : ∃ e, configCheck cfg = Except.error e := by
    rcases h with rfl | rfl | ⟨v, rfl, hv⟩ | ⟨fields, rfl, rfl⟩
    · exact ⟨"环境变量 USERNAME_AND_PASSWORD 未设置", rfl⟩
    · exact ⟨"USERNAME_AND_PASSWORD 格式错误，应为有效的 JSON 字符串", rfl⟩
    · exact ⟨"USERNAME_AND_PASSWORD 应为对象格式", by simp [configCheck, hv]⟩
    · exact ⟨"未找到有效的账户信息", rfl⟩
  obtain ⟨e, he⟩ := herr
  have hm : ∀ es : Nat → Nat → AttemptEnv, mainRun cfg es = ⟨true, [], 1⟩ := by
    intro es
    unfold mainRun
    rw [he]
  exact ⟨hm envs, (hm envs).trans (hm envs2).symm⟩

/-- C7 (witness): an unparseable configuration fails fast with exit code
1 and no results. -/
theorem C7_failfast_w : mainRun ConfigInput.unparseable trivEnvs = ⟨true, [], 1⟩ :=
  (C7_failfast ConfigInput.unparseable trivEnvs trivEnvs (Or.inr (Or.inl rfl))).1

/-- C8: every fault thrown inside an attempt after it starts — during
navigation, or during the form/submission stage after a clear bot
check — is absorbed by the orchestrator: the attempt returns a FAILURE
result (it never propagates), and the result's message contains the
fault's message. -/
theorem C8_faults (u : String) (env : AttemptEnv) (m : String)
    (h : env.nav = Except.error m ∨
      (∃ p, env.nav = Except.ok p ∧ botCheckDetected p = false ∧
        env.form = Except.error m)) :
    (attemptLogin u env).1.success = false ∧
    (attemptLogin u env).1.message = "异常: " ++ m ∧
    containsStr (attemptLogin u env).1.message m = true := by
  obtain ⟨nav, form⟩ := env
  rcases h with hnav | ⟨p, hnav, hbot, hform⟩
  · cases hnav
    exact ⟨rfl, rfl, containsStr_append "异常: " m⟩
  · cases hnav
    cases hform
    refine ⟨?_, ?_, ?_⟩ <;> simp [attemptLogin, hbot, containsStr_append]

/-- C8 (witness): a navigation fault and a form-stage fault both come back
as FAILURE messages containing the fault text. -/
theorem C8_faults_w :
    (attemptLogin "u8" faultEnv).1.message = "异常: boom" ∧
    (attemptLogin "u8" faultEnv2).1.message = "异常: net down" :=
  ⟨(C8_faults "u8" faultEnv "boom" (Or.inl rfl)).2.1,
   (C8_faults "u8" faultEnv2 "net down" (Or.inr ⟨loginFormPage, rfl, rfl, rfl⟩)).2.1⟩

/-- C10 (counterexample): the empty JSON array passes the object-type
check, yet the run still fails fast at the zero-entries check — so not
every configuration parsing to a JSON array is accepted. -/
theorem C10_cex :
    isObjectType (JsonValue.arr []) = true ∧
    configCheck (ConfigInput.parsed (JsonValue.arr [])) = Except.error "未找到有效的账户信息" ∧
    mainRun (ConfigInput.parsed (JsonValue.arr [])) trivEnvs = ⟨true, [], 1⟩ :=
  ⟨rfl, rfl, rfl⟩

/-- C10 (amended): every configuration value parsing to a non-empty JSON
array is accepted by the initialization validation (an array satisfies
the object-type check), and its elements are processed as accounts whose
identities are the decimal index strings and whose secrets are the
element values. -/
theorem C10_amended (items : List JsonValue) (envs : Nat → Nat → AttemptEnv)
    (hne : items ≠ []) :
    configCheck (ConfigInput.parsed (JsonValue.arr items)) =
      Except.ok (mapWithIndex (fun i v => (toString i, v)) 0 items) ∧
    (mainRun (ConfigInput.parsed (JsonValue.arr items)) envs).initFailed = false ∧
    (mainRun (ConfigInput.parsed (JsonValue.arr items)) envs).results.map
        (fun r => r.username) = mapWithIndex (fun i _ => toString i) 0 items := by
  have hlen : (jsEntries (JsonValue.arr items)).length ≠ 0 := by
    show (mapWithIndex (fun i v => (toString i, v)) 0 items).length ≠ 0
    rw [mapWithIndex_length]
    cases items with
    | nil => exact absurd rfl hne
    | cons x xs => simp
  have hne2 : ¬ mapWithIndex (fun i v => (toString i, v)) 0 items = [] := by
    cases items with
    | nil => exact absurd rfl hne
    | cons x xs => simp [mapWithIndex]
  have hok : configCheck (ConfigInput.parsed (JsonValue.arr items)) =
      Except.ok (mapWithIndex (fun i v => (toString i, v)) 0 items) := by
    simp [configCheck, isObjectType, jsEntries, hlen, hne2]
  have hm : mainRun (ConfigInput.parsed (JsonValue.arr items)) envs =
      ⟨false,
        mapWithIndex (fun i uv => loginWithAccount uv.1 (envs i)) 0
          (mapWithIndex (fun i v => (toString i, v)) 0 items),
        if (mapWithIndex (fun i uv => loginWithAccount uv.1 (envs i)) 0
            (mapWithIndex (fun i v => (toString i, v)) 0 items)).any
            (fun r => !r.success) then 1 else 0⟩ := by
    unfold mainRun
    rw [hok]
  refine ⟨hok, by rw [hm], ?_⟩
  rw [hm]
  show (mapWithIndex (fun i uv => loginWithAccount uv.1 (envs i)) 0
      (mapWithIndex (fun i v => (toString i, v)) 0 items)).map
      (fun r => r.username) = mapWithIndex (fun i _ => toString i) 0 items
  rw [mapWithIndex_comp]
  rw [mapWithIndex_map]
  exact mapWithIndex_congr _ _
    (fun j x => loginWithAccount_username (toString j) (envs j)) 0 items

/-- C10 (amended, witness): the one-element array configuration
`["x"]` is accepted, with the single account identity `"0"`. -/
theorem C10_amended_w :
    configCheck (ConfigInput.parsed (JsonValue.arr [JsonValue.str "x"])) =
      Except.ok [("0", JsonValue.str "x")] ∧
    (mainRun (ConfigInput.parsed (JsonValue.arr [JsonValue.str "x"])) trivEnvs).results.map
        (fun r => r.username) = ["0"] := by
  have h := C10_amended [JsonValue.str "x"] trivEnvs (List.cons_ne_nil _ _)
  exact ⟨h.1, h.2.2⟩

end Lunjs
